import Mathlib

/-!
Verification development for the `alloc-madvise` block-allocator boundary.

The repository exposes a C FFI header (`src/alloc-madvise/target/alloc-madvise.hpp`)
declaring a `Memory` result struct and the entry points `git_version`,
`allocate_block(uint32_t num_bytes, bool sequential, bool clear) -> Memory`
and `free_block(Memory) -> void`.  The allocator implementation itself is not
part of the visible sources, so its behaviour is modelled from the design
specification (rounding to page granularity, huge-page strategy selection,
OS reservation with fallback, zero-fill, advisory hints, release by flags).

Machine integers are modelled as `Nat` with explicit `2^32` bounds where the
32-bit width of the header's fields matters; a null pointer is the address `0`.
-/

/-- Standard page size in bytes (4 KiB), as assumed by the specification. -/
def PAGE_SIZE : Nat := 4096

/-- Huge/large page size in bytes (2 MiB), as named in the header comment of
`allocate_block`: "If the amount of bytes is a multiple of 2MB, Huge/Large
Page support is enabled." -/
def HUGE_PAGE_SIZE : Nat := 2 * 1024 * 1024

/-- One above the largest value representable in the header's `uint32_t`
fields (`status`, `flags`, `num_bytes`) and in the `num_bytes` parameter of
`allocate_block`. -/
def U32_MOD : Nat := 2 ^ 32

/-- Flags value recording that the standard-page strategy was used. -/
def FLAG_NONE : Nat := 0

/-- Flags value recording that the huge-page strategy was used. -/
def FLAG_HUGE_PAGES : Nat := 1

/-- Status code for a successful allocation (`0 if valid` per the header). -/
def STATUS_OK : Nat := 0

/-- Nonzero status code: the OS reservation failed (out of memory or address
space), including after the huge-page-to-standard fallback. -/
def STATUS_RESERVATION_FAILED : Nat := 1

/-- Nonzero status code: the page-rounded size does not fit the 32-bit
`num_bytes` field, so no conforming result can be produced. -/
def STATUS_SIZE_OVERFLOW : Nat := 2

/-- The `Memory` struct of the header: allocation status (0 if valid),
allocation flags (used internally when calling free), the number of
allocated bytes, and the address of the allocated memory (0 = null). -/
structure Memory where
  status : Nat
  flags : Nat
  num_bytes : Nat
  address : Nat
deriving Repr, DecidableEq

/-- An OS-level access-pattern advisory applied to a fresh mapping. -/
inductive Advice where
  | adviseSequential
  | adviseRandom
deriving Repr, DecidableEq

/-- Modelled from the spec: the operating system's virtual-memory reservation
primitive, the only external dependency of the allocator.  `reserve size huge`
either yields `some (address, initialContents)` — a non-null address of a
fresh mapping of `size` bytes, reserved with huge-page semantics when `huge`
is set — or `none` when the reservation fails.  `reserve_nonnull` records
that a successful OS reservation never hands out the null address. -/
structure OSModel where
  reserve : Nat → Bool → Option (Nat × (Nat → Nat))
  reserve_nonnull : ∀ size huge addr contents,
    reserve size huge = some (addr, contents) → addr ≠ 0

/-- Round `n` up to the next multiple of `k` (`k > 0`). -/
def roundUpTo (n k : Nat) : Nat := (n + k - 1) / k * k

/-- Modelled from the spec and the header comment of `allocate_block`
("If the amount of bytes is a multiple of 2MB, Huge/Large Page support is
enabled"): the huge-page strategy is selected exactly when the requested
size is a nonzero multiple of the huge-page size.  The selection depends
only on the requested size, never on OS huge-page availability. -/
def useHugePages (num_bytes : Nat) : Bool :=
  num_bytes != 0 && num_bytes % HUGE_PAGE_SIZE == 0

/-- Modelled from the spec: attempt the reservation with huge-page semantics
first when the huge strategy was selected; if that reservation is
unavailable or fails, fall back to a standard-page-granularity
reservation. -/
def reserveWithFallback (os : OSModel) (size : Nat) (huge : Bool) :
    Option (Nat × (Nat → Nat)) :=
  if huge then
    match os.reserve size true with
    | some r => some r
    | none => os.reserve size false
  else os.reserve size false

/-- The full observable outcome of one `allocate_block` call: the returned
`Memory` value, the byte contents of the mapped region (by offset), and the
access-pattern advisories issued to the OS. -/
structure AllocResult where
  mem : Memory
  contents : Nat → Nat
  advice : List Advice

/-- A failed allocation: nonzero status, all other fields zeroed (the spec
leaves them unspecified; callers must not read them). -/
def failResult (status : Nat) : AllocResult :=
  { mem := { status := status, flags := FLAG_NONE, num_bytes := 0, address := 0 },
    contents := fun _ => 0,
    advice := [] }

/-- Modelled from the spec: `allocate_block(num_bytes, sequential, clear)`.
The requested size is rounded up to page granularity; the huge-page strategy
is selected iff the requested size is a nonzero multiple of `HUGE_PAGE_SIZE`
and is recorded in `flags`; the OS reservation is attempted with the selected
strategy, falling back from huge to standard pages; `clear` zero-fills the
region; `sequential` only selects the access-pattern advisory.  If the
page-rounded size cannot be represented in the 32-bit `num_bytes` field, or
the OS reservation fails, a nonzero status is returned. -/
def allocate_block (os : OSModel) (num_bytes : Nat) (sequential clear : Bool) :
    AllocResult :=
  let rounded := roundUpTo num_bytes PAGE_SIZE
  if rounded < U32_MOD then
    match reserveWithFallback os rounded (useHugePages num_bytes) with
    | some (addr, initContents) =>
      { mem := { status := STATUS_OK,
                 flags := if useHugePages num_bytes then FLAG_HUGE_PAGES else FLAG_NONE,
                 num_bytes := rounded,
                 address := addr },
        contents := if clear then fun _ => 0 else initContents,
        advice := [if sequential then Advice.adviseSequential else Advice.adviseRandom] }
    | none => failResult STATUS_RESERVATION_FAILED
  else
    failResult STATUS_SIZE_OVERFLOW

/-- The OS release/unmap call issued when freeing: which page strategy the
release targets, the start address, and the reserved byte count. -/
structure ReleaseCall where
  huge : Bool
  address : Nat
  num_bytes : Nat
deriving Repr, DecidableEq

/-- Modelled from the spec: `free_block(memory)` inspects `flags` to determine
whether the region was huge-page-backed or standard-page-backed and issues the
matching OS release call using the handle's `address` and `num_bytes`. -/
def free_block (memory : Memory) : ReleaseCall :=
  { huge := memory.flags == FLAG_HUGE_PAGES,
    address := memory.address,
    num_bytes := memory.num_bytes }

/-- A concrete OS model under normal conditions: every reservation succeeds,
at the (non-null) address 4096, with all-zero fresh contents. -/
def osOk : OSModel where
  reserve := fun _ _ => some (4096, fun _ => 0)
  reserve_nonnull := by
    intro size huge addr contents h
    simp only [Option.some.injEq, Prod.mk.injEq] at h
    obtain ⟨h1, -⟩ := h
    omega

/-- A concrete OS model where every reservation fails (resources exhausted). -/
def osFail : OSModel where
  reserve := fun _ _ => none
  reserve_nonnull := by
    intro size huge addr contents h
    exact Option.noConfusion h

/-- C type shapes appearing in the FFI boundary declarations. -/
inductive CType where
  | u32
  | usize
  | boolTy
  | memoryTy
  | voidTy
  | constCharPtr
deriving Repr, DecidableEq

/-- The name, argument types and return type of one boundary declaration. -/
structure CSignature where
  name : String
  args : List CType
  ret : CType
deriving Repr, DecidableEq

/-- The declarations of the block-variant header present in the sources:
`git_version`, `allocate_block(uint32_t, bool, bool) -> Memory`,
`free_block(Memory) -> void`. -/
def blockHeaderDecls : List CSignature :=
  [ { name := "git_version", args := [], ret := CType.constCharPtr },
    { name := "allocate_block",
      args := [CType.u32, CType.boolTy, CType.boolTy],
      ret := CType.memoryTy },
    { name := "free_block", args := [CType.memoryTy], ret := CType.voidTy } ]

/-- Modelled from the spec: the general (pointer-width) header variant is not
among the visible sources; the spec's boundary contract lists
`allocate(num_bytes: unsigned-pointer-sized, clear: bool) -> Memory` and a
matching `free(memory: Memory) -> void`. -/
def generalHeaderDecls : List CSignature :=
  [ { name := "allocate", args := [CType.usize, CType.boolTy], ret := CType.memoryTy },
    { name := "free", args := [CType.memoryTy], ret := CType.voidTy } ]

/-- The entire visible boundary surface of the library. -/
def boundaryDecls : List CSignature := blockHeaderDecls ++ generalHeaderDecls

/-! ### Helper lemmas -/

theorem le_roundUpTo (n k : Nat) (hk : 0 < k) : n ≤ roundUpTo n k := by
  unfold roundUpTo
  have h1 : (n + k - 1) % k < k := Nat.mod_lt _ hk
  have h2 : (n + k - 1) / k * k + (n + k - 1) % k = n + k - 1 :=
    Nat.div_add_mod' (n + k - 1) k
  rcases Nat.eq_zero_or_pos n with hn | hn
  · subst hn; exact Nat.zero_le _
  · calc n = n + k - 1 - (k - 1) := by omega
      _ ≤ n + k - 1 - (n + k - 1) % k := Nat.sub_le_sub_left (by omega) _
      _ = (n + k - 1) / k * k := by omega

theorem dvd_roundUpTo (n k : Nat) : k ∣ roundUpTo n k :=
  dvd_mul_left k ((n + k - 1) / k)

theorem roundUpTo_mono (k : Nat) {n m : Nat} (h : n ≤ m) :
    roundUpTo n k ≤ roundUpTo m k :=
  Nat.mul_le_mul_right k (Nat.div_le_div_right (by omega))

theorem reserveWithFallback_nonnull (os : OSModel) (size : Nat) (huge : Bool)
    (addr : Nat) (contents : Nat → Nat)
    (h : reserveWithFallback os size huge = some (addr, contents)) : addr ≠ 0 := by
  unfold reserveWithFallback at h
  split at h
  · split at h
    next r heq =>
      injection h with h2
      subst h2
      exact os.reserve_nonnull _ _ _ _ heq
    next heq =>
      exact os.reserve_nonnull _ _ _ _ h
  · exact os.reserve_nonnull _ _ _ _ h

theorem reserveWithFallback_isSome (os : OSModel) (size : Nat) (huge : Bool)
    (hos : ∀ sz hg, (os.reserve sz hg).isSome = true) :
    (reserveWithFallback os size huge).isSome = true := by
  unfold reserveWithFallback
  split
  · cases hr : os.reserve size true with
    | none => simp only [hr]; exact hos size false
    | some r => simp [hr]
  · exact hos size false

theorem allocate_block_eq_of_some (os : OSModel) (n : Nat) (s c : Bool)
    (addr : Nat) (ic : Nat → Nat)
    (hlt : roundUpTo n PAGE_SIZE < U32_MOD)
    (hr : reserveWithFallback os (roundUpTo n PAGE_SIZE) (useHugePages n) = some (addr, ic)) :
    allocate_block os n s c =
      { mem := { status := STATUS_OK,
                 flags := if useHugePages n then FLAG_HUGE_PAGES else FLAG_NONE,
                 num_bytes := roundUpTo n PAGE_SIZE,
                 address := addr },
        contents := if c then fun _ => 0 else ic,
        advice := [if s then Advice.adviseSequential else Advice.adviseRandom] } := by
  simp only [allocate_block, hlt, if_true, hr]

theorem allocate_block_eq_of_none (os : OSModel) (n : Nat) (s c : Bool)
    (hlt : roundUpTo n PAGE_SIZE < U32_MOD)
    (hr : reserveWithFallback os (roundUpTo n PAGE_SIZE) (useHugePages n) = none) :
    allocate_block os n s c = failResult STATUS_RESERVATION_FAILED := by
  simp only [allocate_block, hlt, if_true, hr]

theorem allocate_block_eq_of_overflow (os : OSModel) (n : Nat) (s c : Bool)
    (hge : ¬ roundUpTo n PAGE_SIZE < U32_MOD) :
    allocate_block os n s c = failResult STATUS_SIZE_OVERFLOW := by
  simp only [allocate_block, hge, if_false]

/-! ### Claim theorems -/

/-- C1: status contract of `allocate_block`: the returned `status` is `0`
exactly when the allocation succeeded (the page-rounded size is representable
in the 32-bit field and the OS reservation, with fallback, succeeded); and on
`status = 0` the other fields are valid: the address is non-null and
`num_bytes` is the actually reserved (page-rounded) size. -/
theorem C1_status_contract (os : OSModel) (n : Nat) (s c : Bool) :
    ((allocate_block os n s c).mem.status = 0 ↔
      roundUpTo n PAGE_SIZE < U32_MOD ∧
        (reserveWithFallback os (roundUpTo n PAGE_SIZE) (useHugePages n)).isSome = true) ∧
    ((allocate_block os n s c).mem.status = 0 →
      (allocate_block os n s c).mem.address ≠ 0 ∧
      (allocate_block os n s c).mem.num_bytes = roundUpTo n PAGE_SIZE) := by
  by_cases hlt : roundUpTo n PAGE_SIZE < U32_MOD
  · cases hx : reserveWithFallback os (roundUpTo n PAGE_SIZE) (useHugePages n) with
    | some r =>
      obtain ⟨addr, ic⟩ := r
      rw [allocate_block_eq_of_some os n s c addr ic hlt hx]
      refine ⟨?_, fun _ => ⟨reserveWithFallback_nonnull os _ _ addr ic hx, rfl⟩⟩
      simp [hlt, hx, STATUS_OK]
    | none =>
      rw [allocate_block_eq_of_none os n s c hlt hx]
      refine ⟨?_, ?_⟩
      · simp [failResult, STATUS_RESERVATION_FAILED, hx]
      · intro h0
        simp [failResult, STATUS_RESERVATION_FAILED] at h0
  · rw [allocate_block_eq_of_overflow os n s c hlt]
    refine ⟨?_, ?_⟩
    · simp [failResult, STATUS_SIZE_OVERFLOW, hlt]
    · intro h0
      simp [failResult, STATUS_SIZE_OVERFLOW] at h0

/-- C1 witness: at `num_bytes = 4096` under the normal OS model the call
succeeds and the success fields are valid. -/
theorem C1_status_contract_witness :
    (allocate_block osOk 4096 true true).mem.status = 0 ∧
    (allocate_block osOk 4096 true true).mem.address ≠ 0 ∧
    (allocate_block osOk 4096 true true).mem.num_bytes = roundUpTo 4096 PAGE_SIZE :=
  ⟨by decide, (C1_status_contract osOk 4096 true true).2 (by decide)⟩

/-- C2: on success, `flags` records the huge-page strategy exactly when the
requested size is a nonzero exact multiple of the huge-page size (2 MiB), and
the standard-page strategy otherwise — for every OS model `os`, i.e.
regardless of OS huge-page availability. -/
theorem C2_huge_page_flags (os : OSModel) (n : Nat) (s c : Bool)
    (h : (allocate_block os n s c).mem.status = 0) :
    ((allocate_block os n s c).mem.flags = FLAG_HUGE_PAGES ↔
      (n ≠ 0 ∧ n % HUGE_PAGE_SIZE = 0)) ∧
    ((allocate_block os n s c).mem.flags = FLAG_NONE ↔
      ¬(n ≠ 0 ∧ n % HUGE_PAGE_SIZE = 0)) := by
  by_cases hlt : roundUpTo n PAGE_SIZE < U32_MOD
  · cases hx : reserveWithFallback os (roundUpTo n PAGE_SIZE) (useHugePages n) with
    | some r =>
      obtain ⟨addr, ic⟩ := r
      rw [allocate_block_eq_of_some os n s c addr ic hlt hx]
      by_cases hh : useHugePages n = true
      · have hh2 : n ≠ 0 ∧ n % HUGE_PAGE_SIZE = 0 := by
          simpa [useHugePages] using hh
        simp [hh, hh2, FLAG_HUGE_PAGES, FLAG_NONE]
      · have hh2 : ¬(n ≠ 0 ∧ n % HUGE_PAGE_SIZE = 0) := by
          simpa [useHugePages] using hh
        simp [hh, hh2, FLAG_HUGE_PAGES, FLAG_NONE]
    | none =>
      rw [allocate_block_eq_of_none os n s c hlt hx] at h
      simp [failResult, STATUS_RESERVATION_FAILED] at h
  · rw [allocate_block_eq_of_overflow os n s c hlt] at h
    simp [failResult, STATUS_SIZE_OVERFLOW] at h

/-- C2 witness: a 2 MiB request is flagged huge-page; a 4 KiB request is
flagged standard, under the same (huge-page-granting) OS model. -/
theorem C2_huge_page_flags_witness :
    (allocate_block osOk HUGE_PAGE_SIZE true true).mem.flags = FLAG_HUGE_PAGES ∧
    (allocate_block osOk 4096 true true).mem.flags = FLAG_NONE :=
  ⟨((C2_huge_page_flags osOk HUGE_PAGE_SIZE true true (by decide)).1).2 (by decide),
   ((C2_huge_page_flags osOk 4096 true true (by decide)).2).2 (by decide)⟩

/-- C3 counterexample: with an OS model that grants every reservation
(normal OS conditions), requesting `num_bytes = 4294967295` (a valid nonzero
`uint32_t` value) still fails: the page-rounded size no longer fits the
32-bit `num_bytes` field, so the returned status is nonzero — refuting
"for all num_bytes > 0 ... status == 0 under normal OS conditions". -/
theorem C3_counterexample :
    0 < (4294967295 : Nat) ∧
    (osOk.reserve (roundUpTo 4294967295 PAGE_SIZE) true).isSome = true ∧
    (osOk.reserve (roundUpTo 4294967295 PAGE_SIZE) false).isSome = true ∧
    (allocate_block osOk 4294967295 true true).mem.status ≠ 0 := by
  refine ⟨by decide, rfl, rfl, ?_⟩
  decide

/-- C3 (amended): for every requested `num_bytes` with
`0 < num_bytes ≤ 2^32 - PAGE_SIZE` (so the page-rounded size fits the
32-bit `num_bytes` field), under an OS model whose reservations always
succeed, `allocate_block` returns status `0`, and the returned `num_bytes`
is at least the requested size and a multiple of the page size. -/
theorem C3_rounding_guarantee (os : OSModel) (n : Nat) (s c : Bool)
    (hn : 0 < n) (hub : n ≤ U32_MOD - PAGE_SIZE)
    (hos : ∀ size huge, (os.reserve size huge).isSome = true) :
    (allocate_block os n s c).mem.status = 0 ∧
    n ≤ (allocate_block os n s c).mem.num_bytes ∧
    PAGE_SIZE ∣ (allocate_block os n s c).mem.num_bytes := by
  have h2 : roundUpTo (U32_MOD - PAGE_SIZE) PAGE_SIZE = U32_MOD - PAGE_SIZE := by
    norm_num [roundUpTo, PAGE_SIZE, U32_MOD]
  have h1 := roundUpTo_mono PAGE_SIZE hub
  rw [h2] at h1
  have hp : (0 : Nat) < PAGE_SIZE := by norm_num [PAGE_SIZE]
  have hlt : roundUpTo n PAGE_SIZE < U32_MOD := by omega
  have hsome : (reserveWithFallback os (roundUpTo n PAGE_SIZE) (useHugePages n)).isSome = true :=
    reserveWithFallback_isSome os _ _ hos
  obtain ⟨⟨addr, ic⟩, hx⟩ := Option.isSome_iff_exists.1 hsome
  rw [allocate_block_eq_of_some os n s c addr ic hlt hx]
  exact ⟨rfl, le_roundUpTo n PAGE_SIZE hp, dvd_roundUpTo n PAGE_SIZE⟩

/-- C3 witness: requesting one byte under the normal OS model succeeds with a
page-rounded size of at least one byte. -/
theorem C3_rounding_guarantee_witness :
    (allocate_block osOk 1 true true).mem.status = 0 ∧
    1 ≤ (allocate_block osOk 1 true true).mem.num_bytes ∧
    PAGE_SIZE ∣ (allocate_block osOk 1 true true).mem.num_bytes :=
  C3_rounding_guarantee osOk 1 true true (by decide) (by decide) (fun _ _ => rfl)

/-- C4: on every successful allocation with `clear = true`, every byte of the
returned region (all `num_bytes` bytes from the start address) reads as zero
immediately after allocation. -/
theorem C4_zero_fill (os : OSModel) (n : Nat) (s : Bool)
    (h : (allocate_block os n s true).mem.status = 0) :
    ∀ i, i < (allocate_block os n s true).mem.num_bytes →
      (allocate_block os n s true).contents i = 0 := by
  by_cases hlt : roundUpTo n PAGE_SIZE < U32_MOD
  · cases hx : reserveWithFallback os (roundUpTo n PAGE_SIZE) (useHugePages n) with
    | some r =>
      obtain ⟨addr, ic⟩ := r
      rw [allocate_block_eq_of_some os n s true addr ic hlt hx]
      intro i hi
      rfl
    | none =>
      rw [allocate_block_eq_of_none os n s true hlt hx] at h
      simp [failResult, STATUS_RESERVATION_FAILED] at h
  · rw [allocate_block_eq_of_overflow os n s true hlt] at h
    simp [failResult, STATUS_SIZE_OVERFLOW] at h

/-- C4 witness: byte 5 of a successful cleared 4 KiB allocation reads zero. -/
theorem C4_zero_fill_witness :
    (allocate_block osOk 4096 false true).contents 5 = 0 :=
  C4_zero_fill osOk 4096 false (by decide) 5 (by decide)

/-- C6: when the request cannot be satisfied — the page-rounded size exceeds
the 32-bit `num_bytes` field, or the OS reservation (with its fallback) fails
— `allocate_block` returns a nonzero status and never a non-null address. -/
theorem C6_failure_reporting (os : OSModel) (n : Nat) (s c : Bool)
    (h : ¬(roundUpTo n PAGE_SIZE < U32_MOD ∧
      (reserveWithFallback os (roundUpTo n PAGE_SIZE) (useHugePages n)).isSome = true)) :
    (allocate_block os n s c).mem.status ≠ 0 ∧
    (allocate_block os n s c).mem.address = 0 := by
  by_cases hlt : roundUpTo n PAGE_SIZE < U32_MOD
  · cases hx : reserveWithFallback os (roundUpTo n PAGE_SIZE) (useHugePages n) with
    | some r => exact absurd ⟨hlt, by simp [hx]⟩ h
    | none =>
      rw [allocate_block_eq_of_none os n s c hlt hx]
      exact ⟨by simp [failResult, STATUS_RESERVATION_FAILED], rfl⟩
  · rw [allocate_block_eq_of_overflow os n s c hlt]
    exact ⟨by simp [failResult, STATUS_SIZE_OVERFLOW], rfl⟩

/-- C6 witness: under an OS model whose reservations all fail, a 4 KiB request
reports a nonzero status with a null address. -/
theorem C6_failure_reporting_witness :
    (allocate_block osFail 4096 true true).mem.status ≠ 0 ∧
    (allocate_block osFail 4096 true true).mem.address = 0 :=
  C6_failure_reporting osFail 4096 true true (by decide)

/-- C7: for every handle returned by a successful `allocate_block`,
`free_block` issues the release call matching the strategy recorded in the
handle's `flags` (huge-page exactly when the huge strategy was selected for
the request), using the handle's address and the page-rounded reserved size —
not the original caller-requested size. -/
theorem C7_free_matches_allocation (os : OSModel) (n : Nat) (s c : Bool)
    (h : (allocate_block os n s c).mem.status = 0) :
    free_block (allocate_block os n s c).mem =
      { huge := useHugePages n,
        address := (allocate_block os n s c).mem.address,
        num_bytes := roundUpTo n PAGE_SIZE } := by
  by_cases hlt : roundUpTo n PAGE_SIZE < U32_MOD
  · cases hx : reserveWithFallback os (roundUpTo n PAGE_SIZE) (useHugePages n) with
    | some r =>
      obtain ⟨addr, ic⟩ := r
      rw [allocate_block_eq_of_some os n s c addr ic hlt hx]
      by_cases hh : useHugePages n = true
      · simp [free_block, hh, FLAG_HUGE_PAGES, FLAG_NONE]
      · rw [Bool.not_eq_true] at hh
        simp [free_block, hh, FLAG_HUGE_PAGES, FLAG_NONE]
    | none =>
      rw [allocate_block_eq_of_none os n s c hlt hx] at h
      simp [failResult, STATUS_RESERVATION_FAILED] at h
  · rw [allocate_block_eq_of_overflow os n s c hlt] at h
    simp [failResult, STATUS_SIZE_OVERFLOW] at h

/-- C7 witness: freeing a successful 5-byte allocation releases the standard
strategy with the page-rounded size 4096, not the requested 5 bytes. -/
theorem C7_free_matches_allocation_witness :
    free_block (allocate_block osOk 5 true true).mem =
      { huge := useHugePages 5,
        address := (allocate_block osOk 5 true true).mem.address,
        num_bytes := roundUpTo 5 PAGE_SIZE } :=
  C7_free_matches_allocation osOk 5 true true (by decide)

/-- C8: the visible boundary surface includes, besides the 32-bit-size block
variant `allocate_block`/`free_block`, the general pointer-width-size variant
`allocate(num_bytes, clear) -> Memory` with a matching `free(memory)`. -/
theorem C8_boundary_surface :
    ({ name := "allocate", args := [CType.usize, CType.boolTy],
       ret := CType.memoryTy } : CSignature) ∈ boundaryDecls ∧
    ({ name := "free", args := [CType.memoryTy],
       ret := CType.voidTy } : CSignature) ∈ boundaryDecls ∧
    ({ name := "allocate_block", args := [CType.u32, CType.boolTy, CType.boolTy],
       ret := CType.memoryTy } : CSignature) ∈ boundaryDecls ∧
    ({ name := "free_block", args := [CType.memoryTy],
       ret := CType.voidTy } : CSignature) ∈ boundaryDecls := by
  refine ⟨?_, ?_, ?_, ?_⟩ <;> simp [boundaryDecls, blockHeaderDecls, generalHeaderDecls]

/-- C9: the `sequential` argument is purely a performance hint: two calls
differing only in `sequential` return the same `Memory` value and the same
region contents; only the access-pattern advisory issued to the OS differs. -/
theorem C9_sequential_hint_no_effect (os : OSModel) (n : Nat) (c s1 s2 : Bool) :
    (allocate_block os n s1 c).mem = (allocate_block os n s2 c).mem ∧
    (allocate_block os n s1 c).contents = (allocate_block os n s2 c).contents := by
  by_cases hlt : roundUpTo n PAGE_SIZE < U32_MOD
  · cases hx : reserveWithFallback os (roundUpTo n PAGE_SIZE) (useHugePages n) with
    | some r =>
      obtain ⟨addr, ic⟩ := r
      rw [allocate_block_eq_of_some os n s1 c addr ic hlt hx,
          allocate_block_eq_of_some os n s2 c addr ic hlt hx]
      exact ⟨rfl, rfl⟩
    | none =>
      rw [allocate_block_eq_of_none os n s1 c hlt hx,
          allocate_block_eq_of_none os n s2 c hlt hx]
      exact ⟨rfl, rfl⟩
  · rw [allocate_block_eq_of_overflow os n s1 c hlt,
        allocate_block_eq_of_overflow os n s2 c hlt]
    exact ⟨rfl, rfl⟩

/-- C10: the 32-bit `num_bytes` field caps reportable sizes below `2^32`;
for any request larger than `2^32 - PAGE_SIZE` (but still a `uint32_t`
value), no `Memory` value fitting the 32-bit field can be both at least the
requested size and a multiple of the page size, and the modelled
`allocate_block` indeed fails with a nonzero status on every OS model. -/
theorem C10_u32_size_limit (os : OSModel) (s c : Bool) (r : Nat)
    (h1 : U32_MOD - PAGE_SIZE < r) (h2 : r < U32_MOD) :
    (allocate_block os r s c).mem.status ≠ 0 ∧
    ∀ m : Memory, m.num_bytes < U32_MOD →
      ¬(r ≤ m.num_bytes ∧ PAGE_SIZE ∣ m.num_bytes) := by
  have hP : (0 : Nat) < PAGE_SIZE := by norm_num [PAGE_SIZE]
  constructor
  · have hge := le_roundUpTo r PAGE_SIZE hP
    have hdvd := dvd_roundUpTo r PAGE_SIZE
    have hnotlt : ¬ roundUpTo r PAGE_SIZE < U32_MOD := by
      simp only [U32_MOD, PAGE_SIZE] at h1 hge hdvd ⊢
      intro hlt
      omega
    rw [allocate_block_eq_of_overflow os r s c hnotlt]
    simp [failResult, STATUS_SIZE_OVERFLOW]
  · intro m hm hc
    obtain ⟨hle, hdvd⟩ := hc
    simp only [U32_MOD, PAGE_SIZE] at h1 hm hdvd
    omega

/-- C10 witness: the largest `uint32_t` request fails under the normal OS
model. -/
theorem C10_u32_size_limit_witness :
    (allocate_block osOk 4294967295 true true).mem.status ≠ 0 :=
  (C10_u32_size_limit osOk true true 4294967295
    (by norm_num [U32_MOD, PAGE_SIZE]) (by norm_num [U32_MOD])).1
